import Mathlib

/-!
Verification of `src/index/multidraw.rs` (glium multi-draw indirect command
buffers): record layouts, buffer wrappers, allocation constructors and
indices-source construction.
-/

namespace Multidraw

/-! ## Binary layout model (Rust `repr(C)`)

`libc::c_uint` is an unsigned 32-bit integer (size 4, alignment 4) on every
platform the crate targets.  The `repr(C)` layout algorithm places each field
at the current offset rounded up to the field's alignment, then rounds the
total size up to the struct's alignment (the maximum field alignment). -/

/-- Round `off` up to the next multiple of `a`. -/
def alignUp (off a : Nat) : Nat := ((off + a - 1) / a) * a

/-- Offsets assigned by the `repr(C)` algorithm to a list of fields given as
(size, alignment) pairs, starting at offset `off`. -/
def reprCOffsets : List (Nat × Nat) → Nat → List Nat
  | [], _ => []
  | (sz, al) :: rest, off =>
    let o := alignUp off al
    o :: reprCOffsets rest (o + sz)

/-- Offset just past the last field under the `repr(C)` algorithm. -/
def reprCEnd : List (Nat × Nat) → Nat → Nat
  | [], off => off
  | (sz, al) :: rest, off => reprCEnd rest (alignUp off al + sz)

/-- Total `repr(C)` struct size: end offset rounded up to the maximal field
alignment. -/
def reprCSize (fields : List (Nat × Nat)) : Nat :=
  alignUp (reprCEnd fields 0) (fields.foldr (fun f m => max f.2 m) 1)

/-- Size and alignment of `libc::c_uint` (unsigned 32-bit). -/
def cUintLayout : Nat × Nat := (4, 4)

/-- The four bytes of a 32-bit unsigned value, little endian. -/
def u32le (n : Nat) : List Nat :=
  [n % 256, n / 256 % 256, n / 65536 % 256, n / 16777216 % 256]

/-- Value of the first four bytes of a byte list, read as a little-endian
32-bit unsigned integer. -/
def u32leVal : List Nat → Nat
  | b0 :: b1 :: b2 :: b3 :: _ => b0 + 256 * b1 + 65536 * b2 + 16777216 * b3
  | _ => 0

/-- Read the little-endian 32-bit value at byte offset `off` of `bs`. -/
def readU32le (bs : List Nat) (off : Nat) : Nat := u32leVal (bs.drop off)

/-! ## The two draw-command records (from the source) -/

/-- `DrawCommandNoIndices` (multidraw.rs): one non-indexed draw record, four
`c_uint` fields in declaration order. -/
structure DrawCommandNoIndices where
  count : Nat
  instance_count : Nat
  first_index : Nat
  base_instance : Nat
  deriving DecidableEq

instance : Inhabited DrawCommandNoIndices := ⟨⟨0, 0, 0, 0⟩⟩

/-- The (size, alignment) list of `DrawCommandNoIndices`'s fields, in
declaration order: `count`, `instance_count`, `first_index`, `base_instance`,
each a `c_uint`. -/
def DrawCommandNoIndices.fieldsLayout : List (Nat × Nat) :=
  [cUintLayout, cUintLayout, cUintLayout, cUintLayout]

/-- `repr(C)` serialization of a `DrawCommandNoIndices` record: the fields'
little-endian bytes in declaration order (the layout has no padding, proved
below). -/
def DrawCommandNoIndices.toBytes (r : DrawCommandNoIndices) : List Nat :=
  u32le r.count ++ u32le r.instance_count ++ u32le r.first_index ++
    u32le r.base_instance

/-- `DrawCommandIndices` (multidraw.rs): one indexed draw record, five
`c_uint` fields in declaration order. -/
structure DrawCommandIndices where
  count : Nat
  instance_count : Nat
  first_index : Nat
  base_vertex : Nat
  base_instance : Nat
  deriving DecidableEq

instance : Inhabited DrawCommandIndices := ⟨⟨0, 0, 0, 0, 0⟩⟩

/-- The (size, alignment) list of `DrawCommandIndices`'s fields, in
declaration order: `count`, `instance_count`, `first_index`, `base_vertex`,
`base_instance`. -/
def DrawCommandIndices.fieldsLayout : List (Nat × Nat) :=
  [cUintLayout, cUintLayout, cUintLayout, cUintLayout, cUintLayout]

/-- `repr(C)` serialization of a `DrawCommandIndices` record. -/
def DrawCommandIndices.toBytes (r : DrawCommandIndices) : List Nat :=
  u32le r.count ++ u32le r.instance_count ++ u32le r.first_index ++
    u32le r.base_vertex ++ u32le r.base_instance

/-! ## Collaborators (declared outside this file's source)

`BufferView`, `Facade`, `IndexBuffer`, `IndicesSource` and the related enums
live in other modules of the crate; only this file's use of them is under
verification, so they are modelled from the spec. -/

/-- Modelled from the spec: the buffer-usage tag passed to the allocator.
`DrawIndirectBuffer` is the indirect-draw usage; `ArrayBuffer` stands for the
other usages of the crate's `BufferType` enum. -/
inductive BufferType where
  | DrawIndirectBuffer
  | ArrayBuffer
  deriving DecidableEq

/-- The four allocation strategies of the crate's `BufferMode` enum:
default/eager, dynamic, persistent, immutable. -/
inductive BufferMode where
  | Default
  | Dynamic
  | Persistent
  | Immutable
  deriving DecidableEq

/-- The crate's `BufferCreationError`: device-side rejection of an
allocation request. -/
inductive BufferCreationError where
  | OutOfMemory
  | BufferTypeNotSupported
  deriving DecidableEq

/-- Modelled from the spec: the device context (`Facade`).  The missing code
is the device-side allocator; it is modelled as an oracle deciding, per
(usage, element count, strategy) request, whether allocation succeeds
(`none`) or fails with which error (`some e`), plus the identity the next
successful allocation receives. -/
structure Facade where
  alloc : BufferType → Nat → BufferMode → Option BufferCreationError
  nextId : Nat

/-- Modelled from the spec: the typed memory view (`BufferView<[α]>`), the
sole owner of a device allocation.  `id` is the identity of the underlying
allocation (used to express borrowing), `ty` and `mode` record the usage tag
and strategy the allocation was requested with, `data` the stored elements. -/
structure BufferView (α : Type) where
  id : Nat
  ty : BufferType
  mode : BufferMode
  data : List α
  deriving DecidableEq

/-- Modelled from the spec: `BufferView::empty_array(facade, ty, elements,
mode)` asks the device for an array allocation of `elements` zeroed elements
with usage `ty` and strategy `mode`; it returns the fresh view on success and
propagates the device's allocation error on failure, retaining nothing. -/
def BufferView.empty_array {α : Type} [Inhabited α] (facade : Facade)
    (ty : BufferType) (elements : Nat) (mode : BufferMode) :
    Except BufferCreationError (BufferView α) :=
  match facade.alloc ty elements mode with
  | some e => .error e
  | none =>
    .ok { id := facade.nextId, ty := ty, mode := mode,
          data := List.replicate elements default }

/-- Number of elements a view holds. -/
def BufferView.len {α : Type} (v : BufferView α) : Nat := v.data.length

/-- Modelled from the spec: read element `i` of the view. -/
def BufferView.read {α : Type} (v : BufferView α) (i : Nat) : Option α :=
  v.data[i]?

/-- Modelled from the spec: overwrite element `i` of the view. -/
def BufferView.write {α : Type} (v : BufferView α) (i : Nat) (x : α) :
    BufferView α :=
  { v with data := v.data.set i x }

/-- Byte size of an element type, for the type-erased slice view. -/
class ElemSize (α : Type) where
  size : Nat

instance : ElemSize DrawCommandNoIndices :=
  ⟨reprCSize DrawCommandNoIndices.fieldsLayout⟩

instance : ElemSize DrawCommandIndices :=
  ⟨reprCSize DrawCommandIndices.fieldsLayout⟩

/-- Modelled from the spec: the type-erased slice (`BufferViewAnySlice`)
produced by `as_slice_any`: a non-owning reference to a range of an
allocation, given by the allocation's identity, a byte offset, the element
count and the element byte size. -/
structure BufferAnySlice where
  bufferId : Nat
  offsetBytes : Nat
  elementsCount : Nat
  elementsSize : Nat
  deriving DecidableEq

/-- Modelled from the spec: `as_slice_any` borrows the view's full storage as
a type-erased slice — same allocation, offset 0, all elements. -/
def BufferView.as_slice_any {α : Type} [ElemSize α] (v : BufferView α) :
    BufferAnySlice :=
  { bufferId := v.id, offsetBytes := 0, elementsCount := v.data.length,
    elementsSize := ElemSize.size α }

/-- The crate's index data types (`IndexType`): 8-, 16- or 32-bit unsigned
indices. -/
inductive IndexType where
  | U8
  | U16
  | U32
  deriving DecidableEq

/-- The crate's primitive topologies (`PrimitiveType`), abbreviated to the
common ones; the claims quantify over all of them. -/
inductive PrimitiveType where
  | Points
  | LinesList
  | LineStrip
  | TrianglesList
  | TriangleStrip
  | TriangleFan
  deriving DecidableEq

/-- Modelled from the spec: the indices-source descriptor consumed by the
draw path, with the two multidraw variants this core produces:
records-only (`MultidrawArray`) and records plus external index data
(`MultidrawElement`). -/
inductive IndicesSource where
  | MultidrawArray (buffer : BufferAnySlice) (primitives : PrimitiveType)
  | MultidrawElement (commands : BufferAnySlice) (indices : BufferAnySlice)
      (data_type : IndexType) (primitives : PrimitiveType)
  deriving DecidableEq

/-- The topology carried by an indices source. -/
def IndicesSource.primitivesOf : IndicesSource → PrimitiveType
  | .MultidrawArray _ p => p
  | .MultidrawElement _ _ _ p => p

/-- Whether an indices source is the records-only multidraw variant. -/
def IndicesSource.isMultidrawArray : IndicesSource → Bool
  | .MultidrawArray _ _ => true
  | _ => false

/-- Modelled from the spec: the externally owned index buffer.  It owns a
view of index elements and exposes its element data type and its declared
primitive topology. -/
structure IndexBuffer (T : Type) where
  buffer : BufferView T
  data_type : IndexType
  primitives : PrimitiveType

/-- The index buffer's element data type (crate method
`get_indices_type`). -/
def IndexBuffer.get_indices_type {T : Type} (ib : IndexBuffer T) : IndexType :=
  ib.data_type

/-- The index buffer's declared topology (crate method
`get_primitives_type`). -/
def IndexBuffer.get_primitives_type {T : Type} (ib : IndexBuffer T) :
    PrimitiveType :=
  ib.primitives

/-- Modelled from the spec: the index buffer's `as_slice_any` borrows its
full storage, like the view's. -/
def IndexBuffer.as_slice_any {T : Type} [ElemSize T] (ib : IndexBuffer T) :
    BufferAnySlice :=
  ib.buffer.as_slice_any

/-! ## The two buffer wrappers (from the source) -/

/-- `DrawCommandsNoIndicesBuffer` (multidraw.rs): wraps one owned view of
non-indexed draw records. -/
structure DrawCommandsNoIndicesBuffer where
  buffer : BufferView DrawCommandNoIndices
  deriving DecidableEq

namespace DrawCommandsNoIndicesBuffer

/-- `empty`: allocate `elements` records with the default strategy
(multidraw.rs lines 58-65). -/
def empty (facade : Facade) (elements : Nat) :
    Except BufferCreationError DrawCommandsNoIndicesBuffer :=
  match BufferView.empty_array facade .DrawIndirectBuffer elements
      .Default with
  | .error e => .error e
  | .ok buf => .ok { buffer := buf }

/-- `empty_dynamic` (multidraw.rs lines 71-78). -/
def empty_dynamic (facade : Facade) (elements : Nat) :
    Except BufferCreationError DrawCommandsNoIndicesBuffer :=
  match BufferView.empty_array facade .DrawIndirectBuffer elements
      .Dynamic with
  | .error e => .error e
  | .ok buf => .ok { buffer := buf }

/-- `empty_persistent` (multidraw.rs lines 84-91). -/
def empty_persistent (facade : Facade) (elements : Nat) :
    Except BufferCreationError DrawCommandsNoIndicesBuffer :=
  match BufferView.empty_array facade .DrawIndirectBuffer elements
      .Persistent with
  | .error e => .error e
  | .ok buf => .ok { buffer := buf }

/-- `empty_immutable` (multidraw.rs lines 97-104). -/
def empty_immutable (facade : Facade) (elements : Nat) :
    Except BufferCreationError DrawCommandsNoIndicesBuffer :=
  match BufferView.empty_array facade .DrawIndirectBuffer elements
      .Immutable with
  | .error e => .error e
  | .ok buf => .ok { buffer := buf }

/-- `with_primitive_type` (multidraw.rs lines 109-114): build the
records-only indices source from the buffer and a topology. -/
def with_primitive_type (s : DrawCommandsNoIndicesBuffer)
    (primitives : PrimitiveType) : IndicesSource :=
  IndicesSource.MultidrawArray s.buffer.as_slice_any primitives

/-- State-passing embedding of `with_primitive_type`: the receiver is taken
by shared reference (`&self`), so the embedded method threads the receiver
state through and returns it alongside the result; the body only reads. -/
def with_primitive_type_st (s : DrawCommandsNoIndicesBuffer)
    (primitives : PrimitiveType) :
    DrawCommandsNoIndicesBuffer × IndicesSource :=
  (s, IndicesSource.MultidrawArray s.buffer.as_slice_any primitives)

/-- `Deref::deref` (multidraw.rs lines 121-123): the shared dereference
returns the owned view field. -/
def deref (s : DrawCommandsNoIndicesBuffer) :
    BufferView DrawCommandNoIndices :=
  s.buffer

/-- `DerefMut::deref_mut` (multidraw.rs lines 128-130) as a functional lens:
mutating through the returned reference replaces the owned view field. -/
def modifyThroughDerefMut (s : DrawCommandsNoIndicesBuffer)
    (f : BufferView DrawCommandNoIndices → BufferView DrawCommandNoIndices) :
    DrawCommandsNoIndicesBuffer :=
  { s with buffer := f s.buffer }

end DrawCommandsNoIndicesBuffer

/-- `DrawCommandsIndicesBuffer` (multidraw.rs): wraps one owned view of
indexed draw records. -/
structure DrawCommandsIndicesBuffer where
  buffer : BufferView DrawCommandIndices
  deriving DecidableEq

namespace DrawCommandsIndicesBuffer

/-- `empty` (multidraw.rs lines 143-150). -/
def empty (facade : Facade) (elements : Nat) :
    Except BufferCreationError DrawCommandsIndicesBuffer :=
  match BufferView.empty_array facade .DrawIndirectBuffer elements
      .Default with
  | .error e => .error e
  | .ok buf => .ok { buffer := buf }

/-- `empty_dynamic` (multidraw.rs lines 156-163). -/
def empty_dynamic (facade : Facade) (elements : Nat) :
    Except BufferCreationError DrawCommandsIndicesBuffer :=
  match BufferView.empty_array facade .DrawIndirectBuffer elements
      .Dynamic with
  | .error e => .error e
  | .ok buf => .ok { buffer := buf }

/-- `empty_persistent` (multidraw.rs lines 169-176). -/
def empty_persistent (facade : Facade) (elements : Nat) :
    Except BufferCreationError DrawCommandsIndicesBuffer :=
  match BufferView.empty_array facade .DrawIndirectBuffer elements
      .Persistent with
  | .error e => .error e
  | .ok buf => .ok { buffer := buf }

/-- `empty_immutable` (multidraw.rs lines 182-189). -/
def empty_immutable (facade : Facade) (elements : Nat) :
    Except BufferCreationError DrawCommandsIndicesBuffer :=
  match BufferView.empty_array facade .DrawIndirectBuffer elements
      .Immutable with
  | .error e => .error e
  | .ok buf => .ok { buffer := buf }

/-- `with_index_buffer` (multidraw.rs lines 194-203): build the indexed
indices source from the buffer and an external index buffer; data type and
topology are taken from the index buffer. -/
def with_index_buffer {T : Type} [ElemSize T]
    (s : DrawCommandsIndicesBuffer) (index_buffer : IndexBuffer T) :
    IndicesSource :=
  IndicesSource.MultidrawElement s.buffer.as_slice_any
    index_buffer.as_slice_any index_buffer.get_indices_type
    index_buffer.get_primitives_type

/-- State-passing embedding of `with_index_buffer`: both the receiver and
the index buffer are taken by shared reference, so both are threaded through
and returned alongside the result; the body only reads. -/
def with_index_buffer_st {T : Type} [ElemSize T]
    (s : DrawCommandsIndicesBuffer) (index_buffer : IndexBuffer T) :
    (DrawCommandsIndicesBuffer × IndexBuffer T) × IndicesSource :=
  ((s, index_buffer),
    IndicesSource.MultidrawElement s.buffer.as_slice_any
      index_buffer.as_slice_any index_buffer.get_indices_type
      index_buffer.get_primitives_type)

/-- `Deref::deref` (multidraw.rs lines 210-212). -/
def deref (s : DrawCommandsIndicesBuffer) : BufferView DrawCommandIndices :=
  s.buffer

/-- `DerefMut::deref_mut` (multidraw.rs lines 217-219) as a functional
lens. -/
def modifyThroughDerefMut (s : DrawCommandsIndicesBuffer)
    (f : BufferView DrawCommandIndices → BufferView DrawCommandIndices) :
    DrawCommandsIndicesBuffer :=
  { s with buffer := f s.buffer }

end DrawCommandsIndicesBuffer

/-- A device context whose allocator accepts every request (used for
concrete evaluations). -/
def alwaysFacade : Facade := { alloc := fun _ _ _ => none, nextId := 0 }

/-- A device context whose allocator rejects every request with
out-of-memory. -/
def failingFacade : Facade :=
  { alloc := fun _ _ _ => some .OutOfMemory, nextId := 0 }

/-- A concrete 16-bit index type for witnesses. -/
def U16Elem : Type := Nat

instance : ElemSize U16Elem := ⟨2⟩

instance : DecidableEq U16Elem := instDecidableEqNat

instance : Inhabited U16Elem := ⟨(0 : Nat)⟩

/-! ## Concrete values for closed evaluations -/

/-- A concrete one-record non-indexed command buffer. -/
def sampleNoIdxBuffer : DrawCommandsNoIndicesBuffer :=
  { buffer := { id := 0, ty := .DrawIndirectBuffer, mode := .Default,
                data := [{ count := 3, instance_count := 1, first_index := 0,
                           base_instance := 0 }] } }

/-- A concrete one-record indexed command buffer. -/
def sampleIdxBuffer : DrawCommandsIndicesBuffer :=
  { buffer := { id := 1, ty := .DrawIndirectBuffer, mode := .Default,
                data := [{ count := 100, instance_count := 1,
                           first_index := 0, base_vertex := 0,
                           base_instance := 0 }] } }

/-- A concrete 16-bit index buffer with triangle topology. -/
def sampleIndexBuffer : IndexBuffer U16Elem :=
  { buffer := { id := 2, ty := .ArrayBuffer, mode := .Default,
                data := ([(0 : Nat)] : List U16Elem) },
    data_type := .U16, primitives := .TrianglesList }

/-- An all-zero non-indexed record list (count 0, instance_count 0). -/
def zeroNoIdxRecords : List DrawCommandNoIndices :=
  [{ count := 0, instance_count := 0, first_index := 0, base_instance := 0 }]

/-- An all-zero indexed record list (count 0, instance_count 0). -/
def zeroIdxRecords : List DrawCommandIndices :=
  [{ count := 0, instance_count := 0, first_index := 0, base_vertex := 0,
     base_instance := 0 }]

end Multidraw

namespace Multidraw

/-! ## Helper lemmas -/

theorem u32leVal_u32le_append (n : Nat) (l : List Nat) :
    u32leVal (u32le n ++ l) = n % 2 ^ 32 := by
  show n % 256 + 256 * (n / 256 % 256) + 65536 * (n / 65536 % 256) +
      16777216 * (n / 16777216 % 256) = n % 4294967296
  omega

theorem u32leVal_u32le (n : Nat) : u32leVal (u32le n) = n % 2 ^ 32 := by
  show n % 256 + 256 * (n / 256 % 256) + 65536 * (n / 65536 % 256) +
      16777216 * (n / 16777216 % 256) = n % 4294967296
  omega

theorem drop4_u32le (a : Nat) (l : List Nat) :
    (u32le a ++ l).drop 4 = l := rfl

theorem drop8_u32le (a b : Nat) (l : List Nat) :
    (u32le a ++ (u32le b ++ l)).drop 8 = l := rfl

theorem drop12_u32le (a b c : Nat) (l : List Nat) :
    (u32le a ++ (u32le b ++ (u32le c ++ l))).drop 12 = l := rfl

theorem drop16_u32le (a b c d : Nat) (l : List Nat) :
    (u32le a ++ (u32le b ++ (u32le c ++ (u32le d ++ l)))).drop 16 = l := rfl

/-- The outcome of each non-indexed constructor relative to the allocation
request it issues: errors are exactly the device's rejections of a request
tagged `DrawIndirectBuffer` with the caller's count and the constructor's
strategy, and a success carries that tag, strategy and count. -/
theorem noIdx_ctor_spec (facade : Facade) (n : Nat) (mode : BufferMode)
    (ctor : Except BufferCreationError DrawCommandsNoIndicesBuffer)
    (hc : ctor =
      match BufferView.empty_array (α := DrawCommandNoIndices) facade
          .DrawIndirectBuffer n mode with
      | .error e => .error e
      | .ok buf => .ok { buffer := buf }) :
    (∀ e, ctor = .error e ↔
      facade.alloc .DrawIndirectBuffer n mode = some e) ∧
    (∀ b, ctor = .ok b → b.buffer.ty = .DrawIndirectBuffer ∧
      b.buffer.mode = mode ∧ b.buffer.len = n) := by
  subst hc
  cases hal : facade.alloc .DrawIndirectBuffer n mode with
  | none => simp [BufferView.empty_array, hal, BufferView.len]
  | some e => simp [BufferView.empty_array, hal]

/-- The outcome of each indexed constructor relative to the allocation
request it issues. -/
theorem idx_ctor_spec (facade : Facade) (n : Nat) (mode : BufferMode)
    (ctor : Except BufferCreationError DrawCommandsIndicesBuffer)
    (hc : ctor =
      match BufferView.empty_array (α := DrawCommandIndices) facade
          .DrawIndirectBuffer n mode with
      | .error e => .error e
      | .ok buf => .ok { buffer := buf }) :
    (∀ e, ctor = .error e ↔
      facade.alloc .DrawIndirectBuffer n mode = some e) ∧
    (∀ b, ctor = .ok b → b.buffer.ty = .DrawIndirectBuffer ∧
      b.buffer.mode = mode ∧ b.buffer.len = n) := by
  subst hc
  cases hal : facade.alloc .DrawIndirectBuffer n mode with
  | none => simp [BufferView.empty_array, hal, BufferView.len]
  | some e => simp [BufferView.empty_array, hal]

/-- C1: `DrawCommandNoIndices` is four unsigned 32-bit fields in order
`count`, `instance_count`, `first_index`, `base_instance` at byte offsets
0, 4, 8, 12, total size 16 bytes, no padding between fields or at the end:
the `repr(C)` offsets are 0, 4, 8, 12, the struct size is 16 and equals the
sum of the field sizes, the serialization is 16 bytes long, and the 32-bit
word at each offset is the corresponding field's value. -/
theorem drawCommandNoIndices_layout (r : DrawCommandNoIndices) :
    reprCOffsets DrawCommandNoIndices.fieldsLayout 0 = [0, 4, 8, 12] ∧
    reprCSize DrawCommandNoIndices.fieldsLayout = 16 ∧
    (DrawCommandNoIndices.fieldsLayout.map Prod.fst).sum =
      reprCSize DrawCommandNoIndices.fieldsLayout ∧
    r.toBytes.length = 16 ∧
    readU32le r.toBytes 0 = r.count % 2 ^ 32 ∧
    readU32le r.toBytes 4 = r.instance_count % 2 ^ 32 ∧
    readU32le r.toBytes 8 = r.first_index % 2 ^ 32 ∧
    readU32le r.toBytes 12 = r.base_instance % 2 ^ 32 := by
  refine ⟨by decide, by decide, by decide, ?_, ?_, ?_, ?_, ?_⟩
  · simp [DrawCommandNoIndices.toBytes, u32le]
  · exact u32leVal_u32le_append r.count _
  · show u32leVal ((u32le r.count ++ _).drop 4) = _
    rw [drop4_u32le]
    exact u32leVal_u32le_append r.instance_count _
  · show u32leVal ((u32le r.count ++ (u32le r.instance_count ++ _)).drop 8) = _
    rw [drop8_u32le]
    exact u32leVal_u32le_append r.first_index _
  · show u32leVal ((u32le r.count ++ (u32le r.instance_count ++
      (u32le r.first_index ++ _))).drop 12) = _
    rw [drop12_u32le]
    exact u32leVal_u32le r.base_instance

/-- C2: `DrawCommandIndices` is five unsigned 32-bit fields in order
`count`, `instance_count`, `first_index`, `base_vertex`, `base_instance` at
byte offsets 0, 4, 8, 12, 16, total size 20 bytes and no padding. -/
theorem drawCommandIndices_layout (r : DrawCommandIndices) :
    reprCOffsets DrawCommandIndices.fieldsLayout 0 = [0, 4, 8, 12, 16] ∧
    reprCSize DrawCommandIndices.fieldsLayout = 20 ∧
    (DrawCommandIndices.fieldsLayout.map Prod.fst).sum =
      reprCSize DrawCommandIndices.fieldsLayout ∧
    r.toBytes.length = 20 ∧
    readU32le r.toBytes 0 = r.count % 2 ^ 32 ∧
    readU32le r.toBytes 4 = r.instance_count % 2 ^ 32 ∧
    readU32le r.toBytes 8 = r.first_index % 2 ^ 32 ∧
    readU32le r.toBytes 12 = r.base_vertex % 2 ^ 32 ∧
    readU32le r.toBytes 16 = r.base_instance % 2 ^ 32 := by
  refine ⟨by decide, by decide, by decide, ?_, ?_, ?_, ?_, ?_, ?_⟩
  · simp [DrawCommandIndices.toBytes, u32le]
  · exact u32leVal_u32le_append r.count _
  · show u32leVal ((u32le r.count ++ _).drop 4) = _
    rw [drop4_u32le]
    exact u32leVal_u32le_append r.instance_count _
  · show u32leVal ((u32le r.count ++ (u32le r.instance_count ++ _)).drop 8) = _
    rw [drop8_u32le]
    exact u32leVal_u32le_append r.first_index _
  · show u32leVal ((u32le r.count ++ (u32le r.instance_count ++
      (u32le r.first_index ++ _))).drop 12) = _
    rw [drop12_u32le]
    exact u32leVal_u32le_append r.base_vertex _
  · show u32leVal ((u32le r.count ++ (u32le r.instance_count ++
      (u32le r.first_index ++ (u32le r.base_vertex ++ _)))).drop 16) = _
    rw [drop16_u32le]
    exact u32leVal_u32le r.base_instance

/-- C3: for every element count and each of the four allocation-strategy
constructors on either buffer type, a successful result holds exactly the
requested number of records; the only other outcome is an allocation
error (the result type is a plain sum of the two, so nothing is retained
on error). -/
theorem constructors_exact_element_count (facade : Facade) (n : Nat) :
    (∀ b, DrawCommandsNoIndicesBuffer.empty facade n = .ok b →
      b.buffer.len = n) ∧
    (∀ b, DrawCommandsNoIndicesBuffer.empty_dynamic facade n = .ok b →
      b.buffer.len = n) ∧
    (∀ b, DrawCommandsNoIndicesBuffer.empty_persistent facade n = .ok b →
      b.buffer.len = n) ∧
    (∀ b, DrawCommandsNoIndicesBuffer.empty_immutable facade n = .ok b →
      b.buffer.len = n) ∧
    (∀ b, DrawCommandsIndicesBuffer.empty facade n = .ok b →
      b.buffer.len = n) ∧
    (∀ b, DrawCommandsIndicesBuffer.empty_dynamic facade n = .ok b →
      b.buffer.len = n) ∧
    (∀ b, DrawCommandsIndicesBuffer.empty_persistent facade n = .ok b →
      b.buffer.len = n) ∧
    (∀ b, DrawCommandsIndicesBuffer.empty_immutable facade n = .ok b →
      b.buffer.len = n) :=
  ⟨fun b h => ((noIdx_ctor_spec facade n .Default _ rfl).2 b h).2.2,
   fun b h => ((noIdx_ctor_spec facade n .Dynamic _ rfl).2 b h).2.2,
   fun b h => ((noIdx_ctor_spec facade n .Persistent _ rfl).2 b h).2.2,
   fun b h => ((noIdx_ctor_spec facade n .Immutable _ rfl).2 b h).2.2,
   fun b h => ((idx_ctor_spec facade n .Default _ rfl).2 b h).2.2,
   fun b h => ((idx_ctor_spec facade n .Dynamic _ rfl).2 b h).2.2,
   fun b h => ((idx_ctor_spec facade n .Persistent _ rfl).2 b h).2.2,
   fun b h => ((idx_ctor_spec facade n .Immutable _ rfl).2 b h).2.2⟩

/-- Witness for C3: a concrete successful allocation of 3 records has
element count 3. -/
theorem constructors_exact_element_count_witness :
    (DrawCommandsNoIndicesBuffer.mk
      (BufferView.mk 0 .DrawIndirectBuffer .Default
        (List.replicate 3 default))).buffer.len = 3 :=
  (constructors_exact_element_count alwaysFacade 3).1 _ rfl

/-- C4: the four allocation strategies are pairwise distinct, and every
constructor of either buffer type issues its allocation request with the
indirect-draw usage tag, the caller's element count and its own strategy:
its error outcomes are exactly the device's rejections of that request, and
a success carries that tag, strategy and count. -/
theorem constructors_allocation_requests (facade : Facade) (n : Nat) :
    (BufferMode.Default ≠ BufferMode.Dynamic ∧
     BufferMode.Default ≠ BufferMode.Persistent ∧
     BufferMode.Default ≠ BufferMode.Immutable ∧
     BufferMode.Dynamic ≠ BufferMode.Persistent ∧
     BufferMode.Dynamic ≠ BufferMode.Immutable ∧
     BufferMode.Persistent ≠ BufferMode.Immutable) ∧
    ((∀ e, DrawCommandsNoIndicesBuffer.empty facade n = .error e ↔
        facade.alloc .DrawIndirectBuffer n .Default = some e) ∧
     (∀ b, DrawCommandsNoIndicesBuffer.empty facade n = .ok b →
        b.buffer.ty = .DrawIndirectBuffer ∧ b.buffer.mode = .Default ∧
        b.buffer.len = n)) ∧
    ((∀ e, DrawCommandsNoIndicesBuffer.empty_dynamic facade n = .error e ↔
        facade.alloc .DrawIndirectBuffer n .Dynamic = some e) ∧
     (∀ b, DrawCommandsNoIndicesBuffer.empty_dynamic facade n = .ok b →
        b.buffer.ty = .DrawIndirectBuffer ∧ b.buffer.mode = .Dynamic ∧
        b.buffer.len = n)) ∧
    ((∀ e, DrawCommandsNoIndicesBuffer.empty_persistent facade n = .error e ↔
        facade.alloc .DrawIndirectBuffer n .Persistent = some e) ∧
     (∀ b, DrawCommandsNoIndicesBuffer.empty_persistent facade n = .ok b →
        b.buffer.ty = .DrawIndirectBuffer ∧ b.buffer.mode = .Persistent ∧
        b.buffer.len = n)) ∧
    ((∀ e, DrawCommandsNoIndicesBuffer.empty_immutable facade n = .error e ↔
        facade.alloc .DrawIndirectBuffer n .Immutable = some e) ∧
     (∀ b, DrawCommandsNoIndicesBuffer.empty_immutable facade n = .ok b →
        b.buffer.ty = .DrawIndirectBuffer ∧ b.buffer.mode = .Immutable ∧
        b.buffer.len = n)) ∧
    ((∀ e, DrawCommandsIndicesBuffer.empty facade n = .error e ↔
        facade.alloc .DrawIndirectBuffer n .Default = some e) ∧
     (∀ b, DrawCommandsIndicesBuffer.empty facade n = .ok b →
        b.buffer.ty = .DrawIndirectBuffer ∧ b.buffer.mode = .Default ∧
        b.buffer.len = n)) ∧
    ((∀ e, DrawCommandsIndicesBuffer.empty_dynamic facade n = .error e ↔
        facade.alloc .DrawIndirectBuffer n .Dynamic = some e) ∧
     (∀ b, DrawCommandsIndicesBuffer.empty_dynamic facade n = .ok b →
        b.buffer.ty = .DrawIndirectBuffer ∧ b.buffer.mode = .Dynamic ∧
        b.buffer.len = n)) ∧
    ((∀ e, DrawCommandsIndicesBuffer.empty_persistent facade n = .error e ↔
        facade.alloc .DrawIndirectBuffer n .Persistent = some e) ∧
     (∀ b, DrawCommandsIndicesBuffer.empty_persistent facade n = .ok b →
        b.buffer.ty = .DrawIndirectBuffer ∧ b.buffer.mode = .Persistent ∧
        b.buffer.len = n)) ∧
    ((∀ e, DrawCommandsIndicesBuffer.empty_immutable facade n = .error e ↔
        facade.alloc .DrawIndirectBuffer n .Immutable = some e) ∧
     (∀ b, DrawCommandsIndicesBuffer.empty_immutable facade n = .ok b →
        b.buffer.ty = .DrawIndirectBuffer ∧ b.buffer.mode = .Immutable ∧
        b.buffer.len = n)) :=
  ⟨by decide,
   noIdx_ctor_spec facade n .Default _ rfl,
   noIdx_ctor_spec facade n .Dynamic _ rfl,
   noIdx_ctor_spec facade n .Persistent _ rfl,
   noIdx_ctor_spec facade n .Immutable _ rfl,
   idx_ctor_spec facade n .Default _ rfl,
   idx_ctor_spec facade n .Dynamic _ rfl,
   idx_ctor_spec facade n .Persistent _ rfl,
   idx_ctor_spec facade n .Immutable _ rfl⟩

/-- Witness for C4: on a device that rejects everything with out-of-memory,
the default constructor's request is the rejected one, and a concrete
successful dynamic allocation carries the dynamic strategy. -/
theorem constructors_allocation_requests_witness :
    failingFacade.alloc .DrawIndirectBuffer 2 .Default = some .OutOfMemory ∧
    (DrawCommandsNoIndicesBuffer.mk
      (BufferView.mk 0 .DrawIndirectBuffer .Dynamic
        (List.replicate 2 default))).buffer.mode = .Dynamic :=
  ⟨((constructors_allocation_requests failingFacade 2).2.1.1
      .OutOfMemory).mp rfl,
   ((constructors_allocation_requests alwaysFacade 2).2.2.1.2 _ rfl).2.1⟩

/-- C5: for every non-indexed command buffer and topology, the constructed
indices source is the records-only variant, its topology is exactly the
given one, and its record array is a borrowed view of the buffer's full
storage: same allocation identity, byte offset 0, all elements, 16-byte
records. -/
theorem with_primitive_type_records_only (b : DrawCommandsNoIndicesBuffer)
    (p : PrimitiveType) :
    b.with_primitive_type p =
      IndicesSource.MultidrawArray
        { bufferId := b.buffer.id, offsetBytes := 0,
          elementsCount := b.buffer.len, elementsSize := 16 } p ∧
    (b.with_primitive_type p).isMultidrawArray = true ∧
    (b.with_primitive_type p).primitivesOf = p :=
  ⟨rfl, rfl, rfl⟩

/-- C6: for every indexed command buffer and index buffer, the constructed
indices source is the indexed variant, its data type and topology are the
index buffer's (no topology is passed by the caller), and both the record
array and the index array are borrowed views of the respective full
storages. -/
theorem with_index_buffer_from_index_buffer {T : Type} [ElemSize T]
    (b : DrawCommandsIndicesBuffer) (ib : IndexBuffer T) :
    b.with_index_buffer ib =
      IndicesSource.MultidrawElement
        { bufferId := b.buffer.id, offsetBytes := 0,
          elementsCount := b.buffer.len, elementsSize := 20 }
        { bufferId := ib.buffer.id, offsetBytes := 0,
          elementsCount := ib.buffer.len, elementsSize := ElemSize.size T }
        ib.get_indices_type ib.get_primitives_type ∧
    (b.with_index_buffer ib).primitivesOf = ib.get_primitives_type ∧
    (b.with_index_buffer ib).isMultidrawArray = false :=
  ⟨rfl, rfl, rfl⟩

/-- C7: indices-source construction is total (it always returns a source of
the expected variant) and never inspects record contents: replacing the
stored records by any other records of the same length — in particular
all-zero records with `count = 0` and `instance_count = 0` — yields the
very same source. -/
theorem indices_source_construction_total {T : Type} [ElemSize T]
    (b : DrawCommandsNoIndicesBuffer) (p : PrimitiveType)
    (c : DrawCommandsIndicesBuffer) (ib : IndexBuffer T)
    (data1 : List DrawCommandNoIndices) (data2 : List DrawCommandIndices)
    (h1 : data1.length = b.buffer.data.length)
    (h2 : data2.length = c.buffer.data.length) :
    (∃ s, b.with_primitive_type p = .MultidrawArray s p) ∧
    (∃ s t, c.with_index_buffer ib =
      .MultidrawElement s t ib.get_indices_type ib.get_primitives_type) ∧
    (DrawCommandsNoIndicesBuffer.mk
      { b.buffer with data := data1 }).with_primitive_type p =
      b.with_primitive_type p ∧
    (DrawCommandsIndicesBuffer.mk
      { c.buffer with data := data2 }).with_index_buffer ib =
      c.with_index_buffer ib := by
  refine ⟨⟨_, rfl⟩, ⟨_, _, rfl⟩, ?_, ?_⟩
  · simp [DrawCommandsNoIndicesBuffer.with_primitive_type,
      BufferView.as_slice_any, h1]
  · simp [DrawCommandsIndicesBuffer.with_index_buffer,
      BufferView.as_slice_any, h2]

/-- Witness for C7: concrete buffers, with their records replaced by
all-zero records (count 0, instance_count 0), give the same sources. -/
theorem indices_source_construction_total_witness :
    (∃ s, sampleNoIdxBuffer.with_primitive_type .TrianglesList =
      .MultidrawArray s .TrianglesList) ∧
    (∃ s t, sampleIdxBuffer.with_index_buffer sampleIndexBuffer =
      .MultidrawElement s t sampleIndexBuffer.get_indices_type
        sampleIndexBuffer.get_primitives_type) ∧
    (DrawCommandsNoIndicesBuffer.mk
      { sampleNoIdxBuffer.buffer with
        data := zeroNoIdxRecords }).with_primitive_type .TrianglesList =
      sampleNoIdxBuffer.with_primitive_type .TrianglesList ∧
    (DrawCommandsIndicesBuffer.mk
      { sampleIdxBuffer.buffer with
        data := zeroIdxRecords }).with_index_buffer sampleIndexBuffer =
      sampleIdxBuffer.with_index_buffer sampleIndexBuffer :=
  indices_source_construction_total sampleNoIdxBuffer .TrianglesList
    sampleIdxBuffer sampleIndexBuffer zeroNoIdxRecords zeroIdxRecords
    rfl rfl

/-- C8: each wrapper holds exactly its owned view and nothing else (wrapping
the dereferenced view reproduces the wrapper), the shared and mutable
dereference operations return exactly the owned view field, and reads and
writes through the wrapper are the view's own. -/
theorem deref_transparent_delegation :
    (∀ b : DrawCommandsNoIndicesBuffer, b.deref = b.buffer) ∧
    (∀ v, (DrawCommandsNoIndicesBuffer.mk v).deref = v) ∧
    (∀ b : DrawCommandsNoIndicesBuffer,
      DrawCommandsNoIndicesBuffer.mk b.deref = b) ∧
    (∀ b f, (DrawCommandsNoIndicesBuffer.modifyThroughDerefMut b f).buffer =
      f b.deref) ∧
    (∀ (b : DrawCommandsNoIndicesBuffer) i,
      b.deref.read i = b.buffer.read i) ∧
    (∀ (b : DrawCommandsNoIndicesBuffer) i x,
      (DrawCommandsNoIndicesBuffer.modifyThroughDerefMut b
        (fun v => v.write i x)).buffer = b.buffer.write i x) ∧
    (∀ c : DrawCommandsIndicesBuffer, c.deref = c.buffer) ∧
    (∀ v, (DrawCommandsIndicesBuffer.mk v).deref = v) ∧
    (∀ c : DrawCommandsIndicesBuffer,
      DrawCommandsIndicesBuffer.mk c.deref = c) ∧
    (∀ c f, (DrawCommandsIndicesBuffer.modifyThroughDerefMut c f).buffer =
      f c.deref) ∧
    (∀ (c : DrawCommandsIndicesBuffer) i,
      c.deref.read i = c.buffer.read i) ∧
    (∀ (c : DrawCommandsIndicesBuffer) i x,
      (DrawCommandsIndicesBuffer.modifyThroughDerefMut c
        (fun v => v.write i x)).buffer = c.buffer.write i x) :=
  ⟨fun _ => rfl, fun _ => rfl, fun _ => rfl, fun _ _ => rfl,
   fun _ _ => rfl, fun _ _ _ => rfl,
   fun _ => rfl, fun _ => rfl, fun _ => rfl, fun _ _ => rfl,
   fun _ _ => rfl, fun _ _ _ => rfl⟩

/-- C9: building an indices source from a zero-element buffer is as defined
as for any other count: any buffer successfully allocated with element
count 0 yields the records-only variant referencing the empty record
array, with no special case. -/
theorem with_primitive_type_zero_elements (facade : Facade)
    (p : PrimitiveType) (b : DrawCommandsNoIndicesBuffer)
    (h : DrawCommandsNoIndicesBuffer.empty facade 0 = .ok b) :
    b.with_primitive_type p =
      IndicesSource.MultidrawArray
        { bufferId := b.buffer.id, offsetBytes := 0, elementsCount := 0,
          elementsSize := 16 } p := by
  have hlen : b.buffer.data.length = 0 :=
    ((noIdx_ctor_spec facade 0 .Default _ rfl).2 b h).2.2
  show IndicesSource.MultidrawArray
    { bufferId := b.buffer.id, offsetBytes := 0,
      elementsCount := b.buffer.data.length, elementsSize := 16 } p = _
  rw [hlen]

/-- Witness for C9: a concrete zero-element buffer gives the records-only
source over the empty record array. -/
theorem with_primitive_type_zero_elements_witness :
    (DrawCommandsNoIndicesBuffer.mk
      (BufferView.mk 0 .DrawIndirectBuffer .Default
        [])).with_primitive_type .Points =
      IndicesSource.MultidrawArray
        { bufferId := 0, offsetBytes := 0, elementsCount := 0,
          elementsSize := 16 } .Points :=
  with_primitive_type_zero_elements alwaysFacade .Points _ rfl

/-- C10: indices-source construction mutates nothing: in the state-passing
embedding of the two `&self` methods, the command buffer (and, in the
indexed case, the index buffer) comes back unchanged — in particular with
identical record and index arrays — and the produced source is the pure
construction's. -/
theorem indices_source_no_mutation {T : Type} [ElemSize T]
    (b : DrawCommandsNoIndicesBuffer) (p : PrimitiveType)
    (c : DrawCommandsIndicesBuffer) (ib : IndexBuffer T) :
    (b.with_primitive_type_st p).1 = b ∧
    (b.with_primitive_type_st p).1.buffer.data = b.buffer.data ∧
    (b.with_primitive_type_st p).2 = b.with_primitive_type p ∧
    (c.with_index_buffer_st ib).1.1 = c ∧
    (c.with_index_buffer_st ib).1.2 = ib ∧
    (c.with_index_buffer_st ib).1.1.buffer.data = c.buffer.data ∧
    (c.with_index_buffer_st ib).1.2.buffer.data = ib.buffer.data ∧
    (c.with_index_buffer_st ib).2 = c.with_index_buffer ib :=
  ⟨rfl, rfl, rfl, rfl, rfl, rfl, rfl, rfl⟩

end Multidraw
